import Mathlib

/-!
The bloom / tonemap pass chain and the perlin terrain grid of gfx_dev.

A shallow embedding of `virtual-reality/bloom_pass.hpp` (`BloomPass`, its constructor,
`execute` and the texture accessors) and of `make_perlin_mesh` from
`shader-workbench/workbench.cpp`.

`BloomPass` talks to the GPU only through OpenGL calls, so the constructor and `execute`
are embedded as functions that return the list of calls they issue, in program order.
The function-local `static int dx` of `execute` is threaded through explicitly.
-/

namespace GfxDev

/-! ## Scalars -/

/-- The arithmetic of the C++ `float` type that the two source files use. The carrier is
kept abstract; the only law is that small integers survive the round trip through
`float` (binary32 represents every integer of magnitude at most `2^24` exactly). -/
structure FloatOps (F : Type) where
  /-- Conversion `int -> float`, also used for integer literals stored in a float. -/
  ofInt : Int → F
  /-- The literal `m * 10^(-e)`, e.g. `0.66f` is `ofDecimal 66 2`. -/
  ofDecimal : Int → Nat → F
  add : F → F → F
  mul : F → F → F
  div : F → F → F
  /-- Conversion `float -> int` (truncation), as done implicitly at `GLsizei` and `int`
  parameters. -/
  toInt : F → Int
  toInt_ofInt : ∀ n : Int, n.natAbs ≤ 16777216 → toInt (ofInt n) = n

/-- Exact rational arithmetic as a concrete carrier, used to evaluate the embedding on
concrete inputs. -/
def ratOps : FloatOps ℚ where
  ofInt n := (n : ℚ)
  ofDecimal m e := (m : ℚ) / (10 : ℚ) ^ e
  add := (· + ·)
  mul := (· * ·)
  div := (· / ·)
  toInt q := Int.tdiv q.num (q.den : Int)
  toInt_ofInt := by
    intro n _
    simp

/-! ## GPU objects -/

/-- The `GlTexture2D` objects: the members of `BloomPass` (lines 49-50) and the texture
the caller hands to `execute`. -/
inductive GlTexture2D where
  | brightTex
  | blurPasses (i : Int)
  | outputTex
  | luminanceTex (i : Int)
  | sceneColorTex
  deriving DecidableEq

/-- The `GlFramebuffer` members of `BloomPass` (lines 46-47). -/
inductive GlFramebuffer where
  | brightFramebuffer
  | blurFramebuffer
  | outputFramebuffer
  | luminance (i : Int)
  deriving DecidableEq

/-- A `GLuint` object name, recorded as the object it names. `GlTexture2D` and
`GlFramebuffer` convert implicitly to `GLuint`; the conversion keeps track of which object
the name belongs to. -/
inductive GLuint where
  | texture (t : GlTexture2D)
  | framebuffer (f : GlFramebuffer)
  | downsample_pipeline
  | zero
  deriving DecidableEq

/-- The `GlShader` members of `BloomPass` (lines 39-44). -/
inductive GlShader where
  | hdr_post
  | hdr_lumShader
  | hdr_avgLumShader
  | hdr_blurShader
  | hdr_brightShader
  | hdr_tonemapShader
  deriving DecidableEq

/-- The colour attachment points used by the pass. -/
inductive Attachment where
  | GL_COLOR_ATTACHMENT0
  | GL_COLOR_ATTACHMENT1
  deriving DecidableEq

/-- Shader stage selectors. -/
inductive Stage where
  | GL_VERTEX_SHADER
  | GL_FRAGMENT_SHADER
  deriving DecidableEq

/-- Values passed to `GlShader::uniform`. -/
inductive UniformValue (F : Type) where
  | float (x : F)
  | float2 (x y : F)
  | float4 (x y z w : F)
  | Identity4x4
  deriving DecidableEq

/-- The calls issued by the constructor and by `execute`. Constant arguments that are the
same at every call site (`GL_FRAMEBUFFER`, `GL_TEXTURE_2D`, the pixel format, mip level 0)
are left out. -/
inductive GlCall (F : Type) where
  | make_fullscreen_quad
  | setup (t : GlTexture2D) (width height : Int)
  | glNamedFramebufferTexture2DEXT (fbo : GLuint) (a : Attachment) (tex : GLuint)
  | check_complete (f : GlFramebuffer)
  | compileStage (s : GlShader) (stage : Stage) (path : String)
  | compileProgram (s : GlShader) (vertPath fragPath : String)
  | glCreateProgramPipelines
  | glUseProgramStages (pipeline : GLuint) (stage : Stage) (s : GlShader)
  | gl_check_error
  | glBindFramebuffer (fbo : GLuint)
  | glViewport (x y width height : Int)
  | bind (s : GlShader)
  | unbind (s : GlShader)
  | texture (s : GlShader) (name : String) (unit : Nat) (tex : GLuint)
  | uniform (s : GlShader) (name : String) (v : UniformValue F)
  | draw_elements
  | glBindProgramPipeline (pipeline : GLuint)
  | glActiveTexture (unit : Nat)
  | glBindTexture (tex : GLuint)
  | download
  | glDrawBuffer (a : Attachment)
  | glReadBuffer (a : Attachment)
  deriving DecidableEq

/-! ## `BloomPass` -/

/-- The data members of `BloomPass` that are plain values (lines 33-37 and 54-57). The GPU
objects are the constructors of `GlTexture2D`, `GlFramebuffer` and `GlShader`. -/
structure BloomPass (F : Type) where
  middleGrey : F
  whitePoint : F
  threshold : F
  blurSigma : F
  blurPixelsPerSide : Int
  perEyeSize : F × F
  exposure : F
  blurDownsampleFactor : F

/-- The member initialisers together with `perEyeSize(size)` (lines 33-37, 55, 57, 61). -/
def BloomPass.init {F : Type} (ops : FloatOps F) (size : F × F) : BloomPass F where
  middleGrey := ops.ofDecimal 10 1
  whitePoint := ops.ofDecimal 15 1
  threshold := ops.ofDecimal 66 2
  blurSigma := ops.ofDecimal 40 1
  blurPixelsPerSide := 2
  perEyeSize := size
  exposure := ops.ofDecimal 5 1
  blurDownsampleFactor := ops.ofDecimal 20 1

/-- The body of the constructor `BloomPass(float2 size)` (lines 63-103), as the calls it
issues. `p` is the object after member initialisation. -/
def BloomPass.constructorCalls {F : Type} (ops : FloatOps F) (p : BloomPass F) :
    List (GlCall F) :=
  [ .make_fullscreen_quad,
    .setup (.luminanceTex 0) 128 128,
    .setup (.luminanceTex 1) 64 64,
    .setup (.luminanceTex 2) 16 16,
    .setup (.luminanceTex 3) 4 4,
    .setup (.luminanceTex 4) 1 1,
    .setup .brightTex (ops.toInt (ops.div p.perEyeSize.1 (ops.ofInt 2)))
      (ops.toInt (ops.div p.perEyeSize.2 (ops.ofInt 2))),
    .setup (.blurPasses 0) (ops.toInt (ops.div p.perEyeSize.1 p.blurDownsampleFactor))
      (ops.toInt (ops.div p.perEyeSize.2 p.blurDownsampleFactor)),
    .setup (.blurPasses 1) (ops.toInt (ops.div p.perEyeSize.1 p.blurDownsampleFactor))
      (ops.toInt (ops.div p.perEyeSize.2 p.blurDownsampleFactor)),
    .setup .outputTex (ops.toInt p.perEyeSize.1) (ops.toInt p.perEyeSize.2),
    .glNamedFramebufferTexture2DEXT (.framebuffer (.luminance 0)) .GL_COLOR_ATTACHMENT0
      (.texture (.luminanceTex 0)),
    .glNamedFramebufferTexture2DEXT (.framebuffer (.luminance 1)) .GL_COLOR_ATTACHMENT0
      (.texture (.luminanceTex 1)),
    .glNamedFramebufferTexture2DEXT (.framebuffer (.luminance 2)) .GL_COLOR_ATTACHMENT0
      (.texture (.luminanceTex 2)),
    .glNamedFramebufferTexture2DEXT (.framebuffer (.luminance 3)) .GL_COLOR_ATTACHMENT0
      (.texture (.luminanceTex 3)),
    .glNamedFramebufferTexture2DEXT (.framebuffer (.luminance 4)) .GL_COLOR_ATTACHMENT0
      (.texture (.luminanceTex 4)),
    .glNamedFramebufferTexture2DEXT (.framebuffer .brightFramebuffer) .GL_COLOR_ATTACHMENT0
      (.texture .brightTex),
    .glNamedFramebufferTexture2DEXT (.framebuffer .blurFramebuffer) .GL_COLOR_ATTACHMENT0
      (.texture (.blurPasses 0)),
    .glNamedFramebufferTexture2DEXT (.framebuffer .blurFramebuffer) .GL_COLOR_ATTACHMENT1
      (.texture (.blurPasses 1)),
    .glNamedFramebufferTexture2DEXT (.framebuffer .outputFramebuffer) .GL_COLOR_ATTACHMENT0
      (.texture .outputTex) ]
  ++ (List.range 5).map (fun (i : Nat) => GlCall.check_complete (.luminance (i : Int)))
  ++
  [ .check_complete .brightFramebuffer,
    .check_complete .blurFramebuffer,
    .check_complete .outputFramebuffer,
    .compileStage .hdr_post .GL_VERTEX_SHADER "../assets/shaders/renderer/post_vert.glsl",
    .compileStage .hdr_avgLumShader .GL_FRAGMENT_SHADER
      "../assets/shaders/renderer/post_lumavg_frag.glsl",
    .compileProgram .hdr_lumShader "../assets/shaders/renderer/post_vert.glsl"
      "../assets/shaders/renderer/post_lum_frag.glsl",
    .compileProgram .hdr_blurShader "../assets/shaders/renderer/gaussian_blur_vert.glsl"
      "../assets/shaders/renderer/gaussian_blur_frag.glsl",
    .compileProgram .hdr_brightShader "../assets/shaders/renderer/post_vert.glsl"
      "../assets/shaders/renderer/post_bright_frag.glsl",
    .compileProgram .hdr_tonemapShader "../assets/shaders/renderer/post_tonemap_vert.glsl"
      "../assets/shaders/renderer/post_tonemap_frag.glsl",
    .glCreateProgramPipelines,
    .glBindProgramPipeline .downsample_pipeline,
    .glUseProgramStages .downsample_pipeline .GL_VERTEX_SHADER .hdr_post,
    .glUseProgramStages .downsample_pipeline .GL_FRAGMENT_SHADER .hdr_avgLumShader,
    .gl_check_error ]

/-- The table `downsampleTargets` of `execute` (line 123): a `std::vector<float3>` filled
with integer literals. -/
def downsampleTargets {F : Type} (ops : FloatOps F) : List (F × F × F) :=
  [ (ops.ofInt 0, ops.ofInt 64, ops.ofInt 64),
    (ops.ofInt 1, ops.ofInt 16, ops.ofInt 16),
    (ops.ofInt 2, ops.ofInt 4, ops.ofInt 4),
    (ops.ofInt 3, ops.ofInt 1, ops.ofInt 1) ]

/-- The lambda `downsample` of `execute` (lines 125-131). Its third call passes the
`GlFramebuffer` element `luminance[idx]` where a texture name is expected. -/
def downsample {F : Type} (ops : FloatOps F) (idx : Int) (targetSize : F × F) :
    List (GlCall F) :=
  [ .glBindFramebuffer (.framebuffer (.luminance (idx + 1))),
    .glViewport 0 0 (ops.toInt targetSize.1) (ops.toInt targetSize.2),
    .texture .hdr_avgLumShader "s_texColor" 0 (.framebuffer (.luminance idx)),
    .draw_elements ]

/-- One call of `BloomPass::execute` (lines 111-219). Inputs: the object, the value of the
static `dx` on entry, and the value `lumValue` that `avgLuminance.download()` returns.
Output: the calls issued, in order, and the value of `dx` on exit. The scene texture is
the constructor `GlTexture2D.sceneColorTex`. -/
def BloomPass.execute {F : Type} (ops : FloatOps F) (p : BloomPass F) (dx : Int)
    (_lumValue : F × F × F × F) : List (GlCall F) × Int :=
  let tonemap : UniformValue F :=
    .float4 p.middleGrey (ops.mul p.whitePoint p.whitePoint) p.threshold (ops.ofDecimal 0 1)
  let dxAfter : Int := 1 - dx
  ( [ .glBindFramebuffer (.framebuffer (.luminance 0)),
      .glViewport 0 0 128 128,
      .bind .hdr_lumShader,
      .texture .hdr_lumShader "s_texColor" 0 (.texture .sceneColorTex),
      .uniform .hdr_lumShader "u_modelViewProj" .Identity4x4,
      .draw_elements,
      .glBindProgramPipeline .downsample_pipeline ]
    ++ (downsampleTargets ops).flatMap
         (fun target => downsample ops (ops.toInt target.1) (target.2.1, target.2.2))
    ++
    [ .glBindProgramPipeline .zero,
      .unbind .hdr_avgLumShader,
      .unbind .hdr_lumShader,
      .glActiveTexture 0,
      .glBindTexture (.framebuffer (.luminance 4)),
      .download,
      .glBindTexture .zero,
      .glBindFramebuffer (.framebuffer .brightFramebuffer),
      .glViewport 0 0 (ops.toInt (ops.div p.perEyeSize.1 (ops.ofInt 2)))
        (ops.toInt (ops.div p.perEyeSize.2 (ops.ofInt 2))),
      .bind .hdr_brightShader,
      .texture .hdr_brightShader "s_texColor" 0 (.texture .sceneColorTex),
      .uniform .hdr_brightShader "u_exposure" (.float p.exposure),
      .uniform .hdr_brightShader "u_tonemap" tonemap,
      .uniform .hdr_brightShader "u_modelViewProj" .Identity4x4,
      .draw_elements,
      .unbind .hdr_brightShader,
      .glBindFramebuffer (.framebuffer .blurFramebuffer) ]
    ++ (if dx = 0 then
          [ .glDrawBuffer .GL_COLOR_ATTACHMENT1, .glReadBuffer .GL_COLOR_ATTACHMENT0 ]
        else
          [ .glDrawBuffer .GL_COLOR_ATTACHMENT0, .glReadBuffer .GL_COLOR_ATTACHMENT1 ])
    ++
    [ .glViewport 0 0 (ops.toInt (ops.div p.perEyeSize.1 p.blurDownsampleFactor))
        (ops.toInt (ops.div p.perEyeSize.2 p.blurDownsampleFactor)),
      .bind .hdr_blurShader,
      .uniform .hdr_blurShader "u_modelViewProj" .Identity4x4,
      .uniform .hdr_blurShader "sigma" (.float p.blurSigma),
      .uniform .hdr_blurShader "numBlurPixelsPerSide" (.float (ops.ofInt p.blurPixelsPerSide)),
      .uniform .hdr_blurShader "blurSize"
        (.float (ops.div (ops.ofDecimal 1 0) (ops.div p.perEyeSize.1 p.blurDownsampleFactor))),
      .uniform .hdr_blurShader "blurMultiplyVec"
        (.float2 (ops.ofDecimal 10 1) (ops.ofDecimal 0 1)),
      .texture .hdr_blurShader "s_blurTexure" 0 (.texture .brightTex),
      .draw_elements,
      .uniform .hdr_blurShader "blurSize"
        (.float (ops.div (ops.ofDecimal 1 0) (ops.div p.perEyeSize.2 p.blurDownsampleFactor))),
      .uniform .hdr_blurShader "blurMultiplyVec"
        (.float2 (ops.ofDecimal 0 1) (ops.ofDecimal 10 1)),
      .texture .hdr_blurShader "s_blurTexure" 0 (.texture (.blurPasses (1 - dx))),
      .draw_elements,
      .unbind .hdr_blurShader,
      .glBindFramebuffer (.framebuffer .outputFramebuffer),
      .glViewport 0 0 (ops.toInt p.perEyeSize.1) (ops.toInt p.perEyeSize.2),
      .bind .hdr_tonemapShader,
      .texture .hdr_tonemapShader "s_texColor" 0 (.texture .sceneColorTex),
      .texture .hdr_tonemapShader "s_texBright" 1 (.texture (.blurPasses dxAfter)),
      .uniform .hdr_tonemapShader "u_exposure" (.float p.exposure),
      .uniform .hdr_tonemapShader "u_tonemap" tonemap,
      .draw_elements ],
    dxAfter )

/-- What the user does in one call of `gather_imgui` (lines 221-239): which tree nodes are
open and, for each slider, the value it writes back (`none` when it is not dragged). -/
structure ImGuiInput (F : Type) where
  treeTonemapping : Bool
  middleGrey : Option F
  whitePoint : Option F
  threshold : Option F
  exposure : Option F
  treeBlur : Bool
  blurSigma : Option F
  blurPixelsPerSide : Option Int

/-- The method `gather_imgui(enabled)` (lines 221-239): the only code of the file that
writes data members after construction. -/
def BloomPass.gather_imgui {F : Type} (p : BloomPass F) (enabled : Bool)
    (ui : ImGuiInput F) : BloomPass F :=
  if !enabled then p
  else
    let p1 :=
      if ui.treeTonemapping then
        { p with
          middleGrey := ui.middleGrey.getD p.middleGrey
          whitePoint := ui.whitePoint.getD p.whitePoint
          threshold := ui.threshold.getD p.threshold
          exposure := ui.exposure.getD p.exposure }
      else p
    if ui.treeBlur then
      { p1 with
        blurSigma := ui.blurSigma.getD p1.blurSigma
        blurPixelsPerSide := ui.blurPixelsPerSide.getD p1.blurPixelsPerSide }
    else p1

/-- The accessor `get_output_texture` (line 241). -/
def BloomPass.get_output_texture : GLuint := .framebuffer .outputFramebuffer

/-- The accessor `get_luminance_texture` (line 243). -/
def BloomPass.get_luminance_texture : GLuint := .texture (.luminanceTex 0)

/-- The accessor `get_bright_tex` (line 245). -/
def BloomPass.get_bright_tex : GLuint := .texture .brightTex

/-- The accessor `get_blur_tex` (line 247). -/
def BloomPass.get_blur_tex : GLuint := .texture (.blurPasses 0)

/-- The value of `dx` after a sequence of calls of `execute`, one per list element (the
object and the readback value may differ from call to call). -/
def runFrames {F : Type} (ops : FloatOps F) (dx : Int) :
    List (BloomPass F × (F × F × F × F)) → Int
  | [] => dx
  | fr :: rest => runFrames ops (BloomPass.execute ops fr.1 dx fr.2).2 rest

/-! ## Reading a call sequence

What a pass samples, what it draws into and which viewport is in force are read off a call
sequence by replaying it on the part of the OpenGL context state that the calls touch. -/

/-- The context state followed along a call sequence. -/
structure GlState (F : Type) where
  /-- Object bound to `GL_FRAMEBUFFER`. -/
  framebuffer : GLuint
  /-- Width and height of the last `glViewport` issued since `framebuffer` was bound. -/
  viewport : Option (Int × Int)
  /-- Draw buffer selected by `glDrawBuffer`, per framebuffer. -/
  drawBuffers : List (GLuint × Attachment)
  /-- Read buffer selected by `glReadBuffer`, per framebuffer. -/
  readBuffers : List (GLuint × Attachment)
  /-- Program made current by `GlShader::bind`. -/
  program : Option GlShader
  /-- Bound program pipeline. -/
  pipeline : GLuint
  /-- Selected texture unit. -/
  activeTexture : Nat
  /-- Texture bindings: unit, sampler name that was pointed at it, object name. -/
  textures : List (Nat × String × GLuint)
  /-- Uniform values set so far. -/
  uniforms : List (GlShader × String × UniformValue F)

/-- The state at the start of a call sequence: nothing is bound or selected, so that the
replay shows what the sequence itself binds and selects. -/
def GlState.initial {F : Type} : GlState F where
  framebuffer := .zero
  viewport := none
  drawBuffers := []
  readBuffers := []
  program := none
  pipeline := .zero
  activeTexture := 0
  textures := []
  uniforms := []

/-- The draw buffer of a framebuffer object: the one selected by `glDrawBuffer`, else the
initial value `GL_COLOR_ATTACHMENT0`. -/
def GlState.drawBuffer {F : Type} (s : GlState F) (fbo : GLuint) : Attachment :=
  match s.drawBuffers.find? (fun e => decide (e.1 = fbo)) with
  | some e => e.2
  | none => .GL_COLOR_ATTACHMENT0

/-- The read buffer of a framebuffer object: the one selected by `glReadBuffer`, else the
initial value `GL_COLOR_ATTACHMENT0`. -/
def GlState.readBuffer {F : Type} (s : GlState F) (fbo : GLuint) : Attachment :=
  match s.readBuffers.find? (fun e => decide (e.1 = fbo)) with
  | some e => e.2
  | none => .GL_COLOR_ATTACHMENT0

/-- Effect of one call on the state. `GlShader::bind` makes the program current and
`unbind` leaves no program current; `GlShader::texture(name, unit, tex, target)` points the
sampler `name` at `unit` and binds `tex` there; `GlShader::uniform` stores the value under
the name in that program. Binding a framebuffer forgets the viewport, so that the
`viewport` seen at a draw is one that was set after the framebuffer was bound. -/
def GlState.step {F : Type} (s : GlState F) : GlCall F → GlState F
  | .glBindFramebuffer fbo => { s with framebuffer := fbo, viewport := none }
  | .glViewport _ _ w h => { s with viewport := some (w, h) }
  | .glDrawBuffer a =>
      { s with drawBuffers :=
          (s.framebuffer, a) :: s.drawBuffers.filter (fun e => decide (e.1 ≠ s.framebuffer)) }
  | .glReadBuffer a =>
      { s with readBuffers :=
          (s.framebuffer, a) :: s.readBuffers.filter (fun e => decide (e.1 ≠ s.framebuffer)) }
  | .bind sh => { s with program := some sh }
  | .unbind _ => { s with program := none }
  | .glBindProgramPipeline pl => { s with pipeline := pl }
  | .glActiveTexture u => { s with activeTexture := u }
  | .glBindTexture tex =>
      let others := s.textures.filter (fun e => decide (e.1 ≠ s.activeTexture))
      { s with textures :=
          if tex = .zero then others else others ++ [(s.activeTexture, "", tex)] }
  | .texture _ name u tex =>
      { s with
        activeTexture := u
        textures := s.textures.filter (fun e => decide (e.1 ≠ u)) ++ [(u, name, tex)] }
  | .uniform sh name v =>
      { s with uniforms :=
          s.uniforms.filter (fun e => decide (¬ (e.1 = sh ∧ e.2.1 = name))) ++ [(sh, name, v)] }
  | _ => s

/-- What one `fsQuad.draw_elements()` sees. -/
structure DrawRecord (F : Type) where
  framebuffer : GLuint
  drawBuffer : Attachment
  readBuffer : Attachment
  viewport : Option (Int × Int)
  program : Option GlShader
  pipeline : GLuint
  textures : List (Nat × String × GLuint)
  uniforms : List (String × UniformValue F)

/-- The observable stages of a call sequence: full-screen draws and readbacks. -/
inductive Event (F : Type) where
  | draw (r : DrawRecord F)
  | readback (textures : List (Nat × String × GLuint))

/-- The draw record of the current state. -/
def GlState.record {F : Type} (s : GlState F) : DrawRecord F where
  framebuffer := s.framebuffer
  drawBuffer := s.drawBuffer s.framebuffer
  readBuffer := s.readBuffer s.framebuffer
  viewport := s.viewport
  program := s.program
  pipeline := s.pipeline
  textures := s.textures
  uniforms :=
    (s.uniforms.filter (fun e => decide (some e.1 = s.program))).map (fun e => e.2)

/-- Replays a call sequence from state `s` and lists its draws and readbacks in order. -/
def events {F : Type} (s : GlState F) : List (GlCall F) → List (Event F)
  | [] => []
  | .draw_elements :: rest => Event.draw s.record :: events s rest
  | .download :: rest => Event.readback s.textures :: events s rest
  | c :: rest => events (s.step c) rest

/-- The draws of a call sequence, in order. -/
def draws {F : Type} (calls : List (GlCall F)) : List (DrawRecord F) :=
  (events GlState.initial calls).filterMap
    (fun e => match e with
      | .draw r => some r
      | .readback _ => none)

/-- The object names bound to texture units at a draw. -/
def DrawRecord.sampled {F : Type} (r : DrawRecord F) : List GLuint :=
  r.textures.map (fun e => e.2.2)

/-- The object bound at the sampler called `name` at a draw. -/
def DrawRecord.sampler {F : Type} (r : DrawRecord F) (name : String) : Option GLuint :=
  (r.textures.find? (fun e => decide (e.2.1 = name))).map (fun e => e.2.2)

/-- The value of the uniform called `name` at a draw. -/
def DrawRecord.uniformValue {F : Type} (r : DrawRecord F) (name : String) :
    Option (UniformValue F) :=
  (r.uniforms.find? (fun e => decide (e.1 = name))).map (fun e => e.2)

/-- The object attached to attachment point `a` of framebuffer `fbo` by the calls `ctor`
(the last attachment made there wins). -/
def attachedTexture {F : Type} (ctor : List (GlCall F)) (fbo : GLuint) (a : Attachment) :
    Option GLuint :=
  ctor.foldl
    (fun acc c => match c with
      | .glNamedFramebufferTexture2DEXT f b tex => if f = fbo ∧ b = a then some tex else acc
      | _ => acc)
    none

/-- All attachments made by the calls `ctor`: framebuffer, attachment point, object. -/
def attachmentsOf {F : Type} (ctor : List (GlCall F)) : List (GLuint × Attachment × GLuint) :=
  ctor.filterMap
    (fun c => match c with
      | .glNamedFramebufferTexture2DEXT f b tex => some (f, b, tex)
      | _ => none)

/-- The size with which the calls `ctor` allocated the texture `t`. -/
def allocatedSize {F : Type} (ctor : List (GlCall F)) (t : GlTexture2D) : Option (Int × Int) :=
  ctor.foldl
    (fun acc c => match c with
      | .setup u w h => if u = t then some (w, h) else acc
      | _ => acc)
    none

/-- The object a draw renders into: what `ctor` attached at the draw buffer of the bound
framebuffer. -/
def DrawRecord.target {F : Type} (ctor : List (GlCall F)) (r : DrawRecord F) : Option GLuint :=
  attachedTexture ctor r.framebuffer r.drawBuffer

/-- The arguments of the `glReadBuffer` calls of a sequence. -/
def readBuffers {F : Type} (calls : List (GlCall F)) : List Attachment :=
  calls.filterMap
    (fun c => match c with
      | .glReadBuffer a => some a
      | _ => none)

/-- The arguments of the `glDrawBuffer` calls of a sequence. -/
def drawBufferCalls {F : Type} (calls : List (GlCall F)) : List Attachment :=
  calls.filterMap
    (fun c => match c with
      | .glDrawBuffer a => some a
      | _ => none)

/-- Colour attachment number `k` of a framebuffer (`GL_COLOR_ATTACHMENT0 + k`), for the
two attachment points in use. -/
def colorAttachment (k : Int) : Attachment :=
  if k = 0 then .GL_COLOR_ATTACHMENT0 else .GL_COLOR_ATTACHMENT1

/-- The draws that replaying one call of `execute` yields, written out (derived from
`execute`; see `draws_execute`). -/
def executeDraws {F : Type} (ops : FloatOps F) (p : BloomPass F) (dx : Int) :
    List (DrawRecord F) :=
  let tonemap : UniformValue F :=
    .float4 p.middleGrey (ops.mul p.whitePoint p.whitePoint) p.threshold (ops.ofDecimal 0 1)
  let blurBuffer : Attachment :=
    if dx = 0 then .GL_COLOR_ATTACHMENT1 else .GL_COLOR_ATTACHMENT0
  let blurRead : Attachment :=
    if dx = 0 then .GL_COLOR_ATTACHMENT0 else .GL_COLOR_ATTACHMENT1
  let blurSize : Int × Int :=
    (ops.toInt (ops.div p.perEyeSize.1 p.blurDownsampleFactor),
     ops.toInt (ops.div p.perEyeSize.2 p.blurDownsampleFactor))
  let down (k size : Int) : DrawRecord F :=
    { framebuffer := .framebuffer (.luminance (k + 1))
      drawBuffer := .GL_COLOR_ATTACHMENT0
      readBuffer := .GL_COLOR_ATTACHMENT0
      viewport := some (size, size)
      program := some .hdr_lumShader
      pipeline := .downsample_pipeline
      textures := [(0, "s_texColor", .framebuffer (.luminance k))]
      uniforms := [("u_modelViewProj", .Identity4x4)] }
  [ { framebuffer := .framebuffer (.luminance 0)
      drawBuffer := .GL_COLOR_ATTACHMENT0
      readBuffer := .GL_COLOR_ATTACHMENT0
      viewport := some (128, 128)
      program := some .hdr_lumShader
      pipeline := .zero
      textures := [(0, "s_texColor", .texture .sceneColorTex)]
      uniforms := [("u_modelViewProj", .Identity4x4)] },
    down 0 64, down 1 16, down 2 4, down 3 1,
    { framebuffer := .framebuffer .brightFramebuffer
      drawBuffer := .GL_COLOR_ATTACHMENT0
      readBuffer := .GL_COLOR_ATTACHMENT0
      viewport := some (ops.toInt (ops.div p.perEyeSize.1 (ops.ofInt 2)),
        ops.toInt (ops.div p.perEyeSize.2 (ops.ofInt 2)))
      program := some .hdr_brightShader
      pipeline := .zero
      textures := [(0, "s_texColor", .texture .sceneColorTex)]
      uniforms := [("u_exposure", .float p.exposure), ("u_tonemap", tonemap),
        ("u_modelViewProj", .Identity4x4)] },
    { framebuffer := .framebuffer .blurFramebuffer
      drawBuffer := blurBuffer
      readBuffer := blurRead
      viewport := some blurSize
      program := some .hdr_blurShader
      pipeline := .zero
      textures := [(0, "s_blurTexure", .texture .brightTex)]
      uniforms := [("u_modelViewProj", .Identity4x4), ("sigma", .float p.blurSigma),
        ("numBlurPixelsPerSide", .float (ops.ofInt p.blurPixelsPerSide)),
        ("blurSize", .float (ops.div (ops.ofDecimal 1 0)
          (ops.div p.perEyeSize.1 p.blurDownsampleFactor))),
        ("blurMultiplyVec", .float2 (ops.ofDecimal 10 1) (ops.ofDecimal 0 1))] },
    { framebuffer := .framebuffer .blurFramebuffer
      drawBuffer := blurBuffer
      readBuffer := blurRead
      viewport := some blurSize
      program := some .hdr_blurShader
      pipeline := .zero
      textures := [(0, "s_blurTexure", .texture (.blurPasses (1 - dx)))]
      uniforms := [("u_modelViewProj", .Identity4x4), ("sigma", .float p.blurSigma),
        ("numBlurPixelsPerSide", .float (ops.ofInt p.blurPixelsPerSide)),
        ("blurSize", .float (ops.div (ops.ofDecimal 1 0)
          (ops.div p.perEyeSize.2 p.blurDownsampleFactor))),
        ("blurMultiplyVec", .float2 (ops.ofDecimal 0 1) (ops.ofDecimal 10 1))] },
    { framebuffer := .framebuffer .outputFramebuffer
      drawBuffer := .GL_COLOR_ATTACHMENT0
      readBuffer := .GL_COLOR_ATTACHMENT0
      viewport := some (ops.toInt p.perEyeSize.1, ops.toInt p.perEyeSize.2)
      program := some .hdr_tonemapShader
      pipeline := .zero
      textures := [(0, "s_texColor", .texture .sceneColorTex),
        (1, "s_texBright", .texture (.blurPasses (1 - dx)))]
      uniforms := [("u_exposure", .float p.exposure), ("u_tonemap", tonemap)] } ]

/-- How a stage shows from outside. A draw: the framebuffer rendered into, the current
program, the bound pipeline and the blur direction uniform if the program has one. -/
inductive StageTag (F : Type) where
  | draw (framebuffer : GLuint) (program : Option GlShader) (pipeline : GLuint)
      (blurMultiplyVec : Option (UniformValue F))
  | readback

/-- The tag of one event. -/
def Event.tag {F : Type} : Event F → StageTag F
  | .draw r => .draw r.framebuffer r.program r.pipeline (r.uniformValue "blurMultiplyVec")
  | .readback _ => .readback

/-- The framebuffers on which a call sequence calls `check_complete`, in order. -/
def checksOf {F : Type} (calls : List (GlCall F)) : List GlFramebuffer :=
  calls.filterMap
    (fun c => match c with
      | .check_complete f => some f
      | _ => none)

/-- The shaders a call sequence compiles, in order. -/
def compilesOf {F : Type} (calls : List (GlCall F)) : List GlShader :=
  calls.filterMap
    (fun c => match c with
      | .compileStage s _ _ => some s
      | .compileProgram s _ _ => some s
      | _ => none)

/-- The textures a call sequence allocates with `setup`, in order. -/
def setupsOf {F : Type} (calls : List (GlCall F)) : List GlTexture2D :=
  calls.filterMap
    (fun c => match c with
      | .setup t _ _ => some t
      | _ => none)

/-! ## `make_perlin_mesh` -/

/-- The members of `Geometry` that `make_perlin_mesh` fills. Faces are `uint3`. -/
structure Geometry (F : Type) where
  vertices : List (F × F × F)
  normals : List (F × F × F)
  faces : List (Nat × Nat × Nat)

/-- Conversion of an `int` value to `std::uint32_t`: reduction modulo `2^32`. Signed
overflow in the `int` expression that is converted is undefined in C++; with wrap-around
arithmetic the converted value is the exact result reduced modulo `2^32`, which is what
this gives when the expression is computed in `Int`. -/
def toUInt32 (v : Int) : Nat := (v % 4294967296).toNat

/-- The vertex pushed for grid point `(x, z)` (lines 14-16); `noise` stands for
`noise::noise`, which is defined outside the two files. -/
def perlinVertex {F : Type} (ops : FloatOps F) (noise : F × F → F) (x z : Int) : F × F × F :=
  let y := ops.div
    (ops.add (noise (ops.mul (ops.ofInt x) (ops.ofDecimal 1 1),
      ops.mul (ops.ofInt z) (ops.ofDecimal 1 1))) (ops.ofDecimal 10 1))
    (ops.ofDecimal 20 1)
  let y := ops.mul y (ops.ofDecimal 20 1)
  (ops.ofInt x, y, ops.ofInt z)

/-- The `uint4` pushed for grid cell `(x, z)` (lines 25-29): `bl, tl, tr, br`. -/
def perlinQuad (gridSize x z : Int) : Nat × Nat × Nat × Nat :=
  let tlIndex := toUInt32 (z * (gridSize + 1) + x)
  let trIndex := toUInt32 (z * (gridSize + 1) + (x + 1))
  let blIndex := toUInt32 ((z + 1) * (gridSize + 1) + x)
  let brIndex := toUInt32 ((z + 1) * (gridSize + 1) + (x + 1))
  (blIndex, tlIndex, trIndex, brIndex)

/-- The values `0, 1, ..., n - 1` of a loop counter `for (int i = 0; i < n; ++i)`. -/
def loopRange (n : Int) : List Int :=
  (List.range n.toNat).map (fun (i : Nat) => (i : Int))

/-- The function `make_perlin_mesh(gridSize)` (lines 6-42). `compute_normals` stands for
`Geometry::compute_normals`, defined outside the two files; it is given the vertices and
faces and its result is stored as the normals. The loops `x <= gridSize` run the counter
over `0 .. gridSize` (for `gridSize = INT_MAX` the increment of the counter overflows,
which is undefined in C++; the loop is given its evident range). -/
def make_perlin_mesh {F : Type} (ops : FloatOps F) (noise : F × F → F)
    (compute_normals : List (F × F × F) → List (Nat × Nat × Nat) → List (F × F × F))
    (gridSize : Int) : Geometry F :=
  let vertices :=
    (loopRange (gridSize + 1)).flatMap (fun x =>
      (loopRange (gridSize + 1)).map (fun z => perlinVertex ops noise x z))
  let quads :=
    (loopRange gridSize).flatMap (fun x =>
      (loopRange gridSize).map (fun z => perlinQuad gridSize x z))
  let faces :=
    quads.flatMap (fun f => [(f.1, f.2.1, f.2.2.1), (f.1, f.2.2.1, f.2.2.2)])
  { vertices := vertices
    normals := compute_normals vertices faces
    faces := faces }

/-- The object constructed with `size` after any number of calls of `gather_imgui`. -/
def BloomPass.afterUi {F : Type} (ops : FloatOps F) (size : F × F)
    (uis : List (Bool × ImGuiInput F)) : BloomPass F :=
  uis.foldl (fun q u => q.gather_imgui u.1 u.2) (BloomPass.init ops size)

/-! ## Lemmas on `execute` -/

theorem downsample_chain {F : Type} (ops : FloatOps F) :
    (downsampleTargets ops).flatMap
        (fun target => downsample ops (ops.toInt target.1) (target.2.1, target.2.2))
      = downsample ops 0 (ops.ofInt 64, ops.ofInt 64)
        ++ downsample ops 1 (ops.ofInt 16, ops.ofInt 16)
        ++ downsample ops 2 (ops.ofInt 4, ops.ofInt 4)
        ++ downsample ops 3 (ops.ofInt 1, ops.ofInt 1) := by
  have h0 : ops.toInt (ops.ofInt 0) = 0 := ops.toInt_ofInt 0 (by decide)
  have h1 : ops.toInt (ops.ofInt 1) = 1 := ops.toInt_ofInt 1 (by decide)
  have h2 : ops.toInt (ops.ofInt 2) = 2 := ops.toInt_ofInt 2 (by decide)
  have h3 : ops.toInt (ops.ofInt 3) = 3 := ops.toInt_ofInt 3 (by decide)
  simp [downsampleTargets, List.flatMap, h0, h1, h2, h3]

theorem execute_snd {F : Type} (ops : FloatOps F) (p : BloomPass F) (dx : Int)
    (lum : F × F × F × F) : (p.execute ops dx lum).2 = 1 - dx := rfl

theorem runFrames_parity {F : Type} (ops : FloatOps F)
    (frames : List (BloomPass F × (F × F × F × F))) :
    ∀ dx : Int, (dx = 0 ∨ dx = 1) →
      runFrames ops dx frames = (dx + (frames.length : Int)) % 2 := by
  induction frames with
  | nil =>
    intro dx h
    rcases h with h | h <;> subst h <;> simp [runFrames]
  | cons fr rest ih =>
    intro dx h
    have hstep : (1 - dx = 0 ∨ 1 - dx = 1) := by omega
    simp only [runFrames, execute_snd, List.length_cons]
    rw [ih (1 - dx) hstep]
    push_cast
    omega

theorem draws_execute {F : Type} (ops : FloatOps F) (p : BloomPass F) (dx : Int)
    (lum : F × F × F × F) :
    draws (p.execute ops dx lum).1 = executeDraws ops p dx := by
  have h64 : ops.toInt (ops.ofInt 64) = 64 := ops.toInt_ofInt 64 (by decide)
  have h16 : ops.toInt (ops.ofInt 16) = 16 := ops.toInt_ofInt 16 (by decide)
  have h4 : ops.toInt (ops.ofInt 4) = 4 := ops.toInt_ofInt 4 (by decide)
  have h1 : ops.toInt (ops.ofInt 1) = 1 := ops.toInt_ofInt 1 (by decide)
  unfold BloomPass.execute
  rw [downsample_chain]
  simp only [downsample, h64, h16, h4, h1]
  by_cases h : dx = 0
  · simp [h, draws, events, GlState.initial, GlState.step, GlState.record,
      GlState.drawBuffer, GlState.readBuffer, executeDraws]
  · simp [h, draws, events, GlState.initial, GlState.step, GlState.record,
      GlState.drawBuffer, GlState.readBuffer, executeDraws]


theorem readBuffers_execute {F : Type} (ops : FloatOps F) (p : BloomPass F) (dx : Int)
    (lum : F × F × F × F) :
    readBuffers (p.execute ops dx lum).1
      = [if dx = 0 then Attachment.GL_COLOR_ATTACHMENT0 else Attachment.GL_COLOR_ATTACHMENT1] := by
  unfold BloomPass.execute
  rw [downsample_chain]
  by_cases h : dx = 0 <;> simp [h, downsample, readBuffers]

theorem drawBufferCalls_execute {F : Type} (ops : FloatOps F) (p : BloomPass F) (dx : Int)
    (lum : F × F × F × F) :
    drawBufferCalls (p.execute ops dx lum).1
      = [if dx = 0 then Attachment.GL_COLOR_ATTACHMENT1 else Attachment.GL_COLOR_ATTACHMENT0] := by
  unfold BloomPass.execute
  rw [downsample_chain]
  by_cases h : dx = 0 <;> simp [h, downsample, drawBufferCalls]

theorem attachedTexture_blur {F : Type} (ops : FloatOps F) (p : BloomPass F) (dx : Int)
    (hdx : dx = 0 ∨ dx = 1) :
    attachedTexture (BloomPass.constructorCalls ops p) (.framebuffer .blurFramebuffer)
        (if dx = 0 then Attachment.GL_COLOR_ATTACHMENT1 else Attachment.GL_COLOR_ATTACHMENT0)
      = some (.texture (.blurPasses (1 - dx))) := by
  rcases hdx with h | h <;> subst h <;>
    simp [BloomPass.constructorCalls, attachedTexture, List.range, List.range.loop]

/-- The three last draws of one call of `execute` (horizontal blur, vertical blur,
tonemap): what they sample and what they render into. -/
theorem blur_stage_records {F : Type} (ops : FloatOps F) (p : BloomPass F) (dx : Int)
    (lum : F × F × F × F) (hdx : dx = 0 ∨ dx = 1) :
    ∃ pre h v t,
      draws (p.execute ops dx lum).1 = pre ++ [h, v, t] ∧ pre.length = 6 ∧
      h.sampled = [.texture .brightTex] ∧
      v.sampled = [.texture (.blurPasses (1 - dx))] ∧
      h.target (BloomPass.constructorCalls ops p) = some (.texture (.blurPasses (1 - dx))) ∧
      v.target (BloomPass.constructorCalls ops p) = some (.texture (.blurPasses (1 - dx))) ∧
      t.sampler "s_texBright" = some (.texture (.blurPasses (1 - dx))) := by
  rw [draws_execute]
  simp only [executeDraws]
  refine ⟨[_, _, _, _, _, _], _, _, _, rfl, rfl, ?_, ?_, ?_, ?_, ?_⟩
  · simp [DrawRecord.sampled]
  · simp [DrawRecord.sampled]
  · simp only [DrawRecord.target]
    exact attachedTexture_blur ops p dx hdx
  · simp only [DrawRecord.target]
    exact attachedTexture_blur ops p dx hdx
  · simp [DrawRecord.sampler]

/-! ## Properties of the pass chain -/

/-- C1: every call of `execute` flips the selector `dx` once (`dx` becomes `1 - dx`); so
after `N` calls starting from `dx = 0` the selector is `N mod 2`, and the next call selects
colour attachment `N mod 2` of the blur framebuffer with `glReadBuffer` and the other
attachment with `glDrawBuffer`. -/
theorem execute_selector_parity {F : Type} (ops : FloatOps F) (p : BloomPass F)
    (lum : F × F × F × F) :
    (∀ dx : Int, (p.execute ops dx lum).2 = 1 - dx) ∧
    ∀ frames : List (BloomPass F × (F × F × F × F)),
      runFrames ops 0 frames = (frames.length : Int) % 2 ∧
      readBuffers (p.execute ops (runFrames ops 0 frames) lum).1
        = [colorAttachment ((frames.length : Int) % 2)] ∧
      drawBufferCalls (p.execute ops (runFrames ops 0 frames) lum).1
        = [colorAttachment (1 - (frames.length : Int) % 2)] ∧
      ∃ pre h v t,
        draws (p.execute ops (runFrames ops 0 frames) lum).1 = pre ++ [h, v, t] ∧
        pre.length = 6 ∧
        h.framebuffer = .framebuffer .blurFramebuffer ∧
        v.framebuffer = .framebuffer .blurFramebuffer ∧
        h.readBuffer = colorAttachment ((frames.length : Int) % 2) ∧
        v.readBuffer = colorAttachment ((frames.length : Int) % 2) ∧
        h.drawBuffer = colorAttachment (1 - (frames.length : Int) % 2) ∧
        v.drawBuffer = colorAttachment (1 - (frames.length : Int) % 2) := by
  refine ⟨fun dx => rfl, fun frames => ?_⟩
  have hpar : runFrames ops 0 frames = (frames.length : Int) % 2 := by
    rw [runFrames_parity ops frames 0 (Or.inl rfl)]
    simp
  have hread : (if (frames.length : Int) % 2 = 0 then Attachment.GL_COLOR_ATTACHMENT0
      else Attachment.GL_COLOR_ATTACHMENT1) = colorAttachment ((frames.length : Int) % 2) := by
    simp [colorAttachment]
  have hdraw : (if (frames.length : Int) % 2 = 0 then Attachment.GL_COLOR_ATTACHMENT1
      else Attachment.GL_COLOR_ATTACHMENT0)
      = colorAttachment (1 - (frames.length : Int) % 2) := by
    rcases Int.emod_two_eq_zero_or_one (frames.length : Int) with h | h <;>
      simp [colorAttachment, h]
  rw [readBuffers_execute, drawBufferCalls_execute, draws_execute, hpar, hread, hdraw]
  refine ⟨rfl, rfl, rfl, ?_⟩
  simp only [executeDraws, hread, hdraw]
  exact ⟨[_, _, _, _, _, _], _, _, _, rfl, rfl, rfl, rfl, rfl, rfl, rfl, rfl⟩

/-- C2: `execute` evaluated for a 1280x720 pass with selector 0. The horizontal blur pass
samples `brightTex` and both blur passes render into `blurPasses[1]`, but the vertical
pass samples `blurPasses[1]` as well: the texture it samples is its own draw target, not
the other slot of the pair. -/
theorem vertical_blur_samples_own_target :
    ∃ pre h v t,
      draws (BloomPass.execute ratOps (BloomPass.init ratOps (1280, 720)) 0 (0, 0, 0, 0)).1
        = pre ++ [h, v, t] ∧ pre.length = 6 ∧
      h.sampled = [.texture .brightTex] ∧
      h.target (BloomPass.constructorCalls ratOps (BloomPass.init ratOps (1280, 720)))
        = some (.texture (.blurPasses 1)) ∧
      v.target (BloomPass.constructorCalls ratOps (BloomPass.init ratOps (1280, 720)))
        = some (.texture (.blurPasses 1)) ∧
      v.sampled = [.texture (.blurPasses 1)] ∧
      GLuint.texture (.blurPasses 0) ∉ v.sampled := by
  obtain ⟨pre, h, v, t, hd, hlen, hs, vs, ht, vt, _⟩ :=
    blur_stage_records ratOps (BloomPass.init ratOps (1280, 720)) 0 (0, 0, 0, 0) (Or.inl rfl)
  refine ⟨pre, h, v, t, hd, hlen, hs, ?_, ?_, ?_, ?_⟩
  · simpa using ht
  · simpa using vt
  · simpa using vs
  · rw [vs]
    decide

/-- C3: for a selector value 0 or 1 at entry, the texture bound at `s_texBright` for the
tonemap draw is the texture attached at the draw buffer of both blur draws of the same
call; and if the selector value was left by a previous call, it is not the texture that the
blur draws of that previous call rendered into. -/
theorem tonemap_bloom_is_written_slot {F : Type} (ops : FloatOps F) (p : BloomPass F)
    (dx : Int) (lum : F × F × F × F) (hdx : dx = 0 ∨ dx = 1) :
    ∃ pre h v t,
      draws (p.execute ops dx lum).1 = pre ++ [h, v, t] ∧ pre.length = 6 ∧
      (t.sampler "s_texBright").isSome ∧
      t.sampler "s_texBright" = h.target (BloomPass.constructorCalls ops p) ∧
      t.sampler "s_texBright" = v.target (BloomPass.constructorCalls ops p) ∧
      ∀ (pPrev : BloomPass F) (dxPrev : Int) (lumPrev : F × F × F × F),
        (dxPrev = 0 ∨ dxPrev = 1) → (pPrev.execute ops dxPrev lumPrev).2 = dx →
        ∃ preP hP vP tP,
          draws (pPrev.execute ops dxPrev lumPrev).1 = preP ++ [hP, vP, tP] ∧
          preP.length = 6 ∧
          t.sampler "s_texBright" ≠ hP.target (BloomPass.constructorCalls ops pPrev) ∧
          t.sampler "s_texBright" ≠ vP.target (BloomPass.constructorCalls ops pPrev) := by
  obtain ⟨pre, h, v, t, hd, hlen, _, _, ht, vt, tt⟩ := blur_stage_records ops p dx lum hdx
  refine ⟨pre, h, v, t, hd, hlen, ?_, ?_, ?_, ?_⟩
  · rw [tt]
    rfl
  · rw [tt, ht]
  · rw [tt, vt]
  · intro pPrev dxPrev lumPrev hprev hstep
    obtain ⟨preP, hP, vP, tP, hdP, hlenP, _, _, htP, vtP, _⟩ :=
      blur_stage_records ops pPrev dxPrev lumPrev hprev
    have hne : (1 : Int) - dx ≠ 1 - dxPrev := by
      rw [execute_snd] at hstep
      omega
    refine ⟨preP, hP, vP, tP, hdP, hlenP, ?_, ?_⟩
    · rw [tt, htP]
      simp [hne]
    · rw [tt, vtP]
      simp [hne]

/-- C3 at a 1280x720 pass with selector 0. -/
theorem tonemap_bloom_is_written_slot_witness :
    ((0 : Int) = 0 ∨ (0 : Int) = 1) ∧
    ∃ pre h v t,
      draws (BloomPass.execute ratOps (BloomPass.init ratOps (1280, 720)) 0 (0, 0, 0, 0)).1
        = pre ++ [h, v, t] ∧ pre.length = 6 ∧
      (t.sampler "s_texBright").isSome ∧
      t.sampler "s_texBright"
        = h.target (BloomPass.constructorCalls ratOps (BloomPass.init ratOps (1280, 720))) ∧
      t.sampler "s_texBright"
        = v.target (BloomPass.constructorCalls ratOps (BloomPass.init ratOps (1280, 720))) ∧
      ∀ (pPrev : BloomPass ℚ) (dxPrev : Int) (lumPrev : ℚ × ℚ × ℚ × ℚ),
        (dxPrev = 0 ∨ dxPrev = 1) → (pPrev.execute ratOps dxPrev lumPrev).2 = 0 →
        ∃ preP hP vP tP,
          draws (pPrev.execute ratOps dxPrev lumPrev).1 = preP ++ [hP, vP, tP] ∧
          preP.length = 6 ∧
          t.sampler "s_texBright" ≠ hP.target (BloomPass.constructorCalls ratOps pPrev) ∧
          t.sampler "s_texBright" ≠ vP.target (BloomPass.constructorCalls ratOps pPrev) :=
  ⟨Or.inl rfl,
    tonemap_bloom_is_written_slot ratOps (BloomPass.init ratOps (1280, 720)) 0 (0, 0, 0, 0)
      (Or.inl rfl)⟩

/-- C4: `get_output_texture` returns the name of `outputFramebuffer`, a framebuffer
object, and not the name of `outputTex`, the texture the constructor attaches to that
framebuffer; the three other accessors return texture names. -/
theorem get_output_texture_is_framebuffer_name :
    BloomPass.get_output_texture = GLuint.framebuffer .outputFramebuffer ∧
    BloomPass.get_output_texture ≠ GLuint.texture .outputTex ∧
    attachedTexture (BloomPass.constructorCalls ratOps (BloomPass.init ratOps (1280, 720)))
        (.framebuffer .outputFramebuffer) .GL_COLOR_ATTACHMENT0
      = some (GLuint.texture .outputTex) ∧
    BloomPass.get_luminance_texture = GLuint.texture (.luminanceTex 0) ∧
    BloomPass.get_bright_tex = GLuint.texture .brightTex ∧
    BloomPass.get_blur_tex = GLuint.texture (.blurPasses 0) := by
  refine ⟨rfl, by decide, ?_, rfl, rfl, rfl⟩
  simp [BloomPass.constructorCalls, attachedTexture, List.range, List.range.loop]

/-- C5: `execute` evaluated for a 1280x720 pass. The four downsampling draws come in the
order `k = 0, 1, 2, 3` and draw `k` renders into framebuffer `luminance[k+1]`, but the name
bound at its source sampler is that of the framebuffer object `luminance[k]`; no
`luminanceTex` name is bound at any of the four draws. -/
theorem downsample_binds_framebuffer_name :
    (((draws (BloomPass.execute ratOps (BloomPass.init ratOps (1280, 720)) 0
        (0, 0, 0, 0)).1).drop 1).take 4).map (fun r => (r.framebuffer, r.viewport, r.sampled))
      = [ (.framebuffer (.luminance 1), some (64, 64), [.framebuffer (.luminance 0)]),
          (.framebuffer (.luminance 2), some (16, 16), [.framebuffer (.luminance 1)]),
          (.framebuffer (.luminance 3), some (4, 4), [.framebuffer (.luminance 2)]),
          (.framebuffer (.luminance 4), some (1, 1), [.framebuffer (.luminance 3)]) ] ∧
    ∀ r ∈ ((draws (BloomPass.execute ratOps (BloomPass.init ratOps (1280, 720)) 0
        (0, 0, 0, 0)).1).drop 1).take 4,
      ∀ k : Int, GLuint.texture (.luminanceTex k) ∉ r.sampled := by
  rw [draws_execute]
  constructor
  · simp [executeDraws, DrawRecord.sampled]
  · intro r hr k
    simp only [executeDraws, List.drop, List.take, List.mem_cons, List.mem_nil_iff,
      or_false] at hr
    rcases hr with h | h | h | h <;> subst h <;> simp [DrawRecord.sampled]

theorem gather_imgui_size {F : Type} (p : BloomPass F) (enabled : Bool) (ui : ImGuiInput F) :
    (p.gather_imgui enabled ui).perEyeSize = p.perEyeSize ∧
    (p.gather_imgui enabled ui).blurDownsampleFactor = p.blurDownsampleFactor := by
  unfold BloomPass.gather_imgui
  cases enabled <;> cases h1 : ui.treeTonemapping <;> cases h2 : ui.treeBlur <;> simp

theorem foldl_gather_imgui_size {F : Type} (uis : List (Bool × ImGuiInput F)) :
    ∀ p : BloomPass F,
      (uis.foldl (fun q u => q.gather_imgui u.1 u.2) p).perEyeSize = p.perEyeSize ∧
      (uis.foldl (fun q u => q.gather_imgui u.1 u.2) p).blurDownsampleFactor
        = p.blurDownsampleFactor := by
  induction uis with
  | nil => intro p; exact ⟨rfl, rfl⟩
  | cons u rest ih =>
    intro p
    simp only [List.foldl_cons]
    obtain ⟨h1, h2⟩ := ih (p.gather_imgui u.1 u.2)
    obtain ⟨g1, g2⟩ := gather_imgui_size p u.1 u.2
    exact ⟨h1.trans g1, h2.trans g2⟩

theorem afterUi_size {F : Type} (ops : FloatOps F) (size : F × F)
    (uis : List (Bool × ImGuiInput F)) :
    (BloomPass.afterUi ops size uis).perEyeSize = size ∧
    (BloomPass.afterUi ops size uis).blurDownsampleFactor = ops.ofDecimal 20 1 :=
  foldl_gather_imgui_size uis (BloomPass.init ops size)

/-- C6: for every size given to the constructor, every later setting of the sliders and
every selector value, each of the nine draws of `execute` happens with a viewport set
after its framebuffer was bound, and the width and height of that viewport are those with
which the constructor allocated every texture it attached to that framebuffer: 128, 64,
16, 4, 1 square, half size, size over the blur factor (twice) and full size. -/
theorem viewport_matches_target {F : Type} (ops : FloatOps F) (size : F × F)
    (uis : List (Bool × ImGuiInput F)) (dx : Int) (lum : F × F × F × F) :
    (draws ((BloomPass.afterUi ops size uis).execute ops dx lum).1).map (fun r => r.viewport)
      = [ some (128, 128), some (64, 64), some (16, 16), some (4, 4), some (1, 1),
          some (ops.toInt (ops.div size.1 (ops.ofInt 2)),
            ops.toInt (ops.div size.2 (ops.ofInt 2))),
          some (ops.toInt (ops.div size.1 (ops.ofDecimal 20 1)),
            ops.toInt (ops.div size.2 (ops.ofDecimal 20 1))),
          some (ops.toInt (ops.div size.1 (ops.ofDecimal 20 1)),
            ops.toInt (ops.div size.2 (ops.ofDecimal 20 1))),
          some (ops.toInt size.1, ops.toInt size.2) ] ∧
    ∀ r ∈ draws ((BloomPass.afterUi ops size uis).execute ops dx lum).1,
      (∃ a t, attachedTexture (BloomPass.constructorCalls ops (BloomPass.init ops size))
          r.framebuffer a = some (.texture t)) ∧
      ∀ a t, attachedTexture (BloomPass.constructorCalls ops (BloomPass.init ops size))
          r.framebuffer a = some (.texture t) →
        (r.viewport).isSome ∧
        r.viewport = allocatedSize (BloomPass.constructorCalls ops (BloomPass.init ops size)) t := by
  obtain ⟨hs, hb⟩ := afterUi_size ops size uis
  rw [draws_execute]
  constructor
  · simp [executeDraws, hs, hb]
  · intro r hr
    simp only [executeDraws, List.mem_cons, List.mem_nil_iff, or_false] at hr
    rcases hr with h | h | h | h | h | h | h | h | h <;> subst h
    all_goals constructor
    all_goals first
      | (refine ⟨.GL_COLOR_ATTACHMENT0, ?_⟩
         simp [BloomPass.constructorCalls, attachedTexture, List.range, List.range.loop])
      | (intro a t hat
         cases a <;>
          simp [BloomPass.constructorCalls, attachedTexture, List.range, List.range.loop] at hat <;>
          subst hat <;>
          simp [BloomPass.constructorCalls, allocatedSize, List.range, List.range.loop,
            BloomPass.init, hs, hb])

/-- C7: whatever the object, the selector and the readback value, one call of `execute`
shows the same ten stages in the same order: the luminance sample, the four downsampling
draws into `luminance[1..4]`, the readback, the bright pass, the horizontal and the
vertical blur draw, and the tonemap draw. There are exactly nine draws and the readback
sits between the fifth and the sixth. -/
theorem execute_stage_order {F : Type} (ops : FloatOps F) (p : BloomPass F) (dx : Int)
    (lum : F × F × F × F) :
    (events GlState.initial (p.execute ops dx lum).1).map Event.tag
      = [ .draw (.framebuffer (.luminance 0)) (some .hdr_lumShader) .zero none,
          .draw (.framebuffer (.luminance 1)) (some .hdr_lumShader) .downsample_pipeline none,
          .draw (.framebuffer (.luminance 2)) (some .hdr_lumShader) .downsample_pipeline none,
          .draw (.framebuffer (.luminance 3)) (some .hdr_lumShader) .downsample_pipeline none,
          .draw (.framebuffer (.luminance 4)) (some .hdr_lumShader) .downsample_pipeline none,
          .readback,
          .draw (.framebuffer .brightFramebuffer) (some .hdr_brightShader) .zero none,
          .draw (.framebuffer .blurFramebuffer) (some .hdr_blurShader) .zero
            (some (.float2 (ops.ofDecimal 10 1) (ops.ofDecimal 0 1))),
          .draw (.framebuffer .blurFramebuffer) (some .hdr_blurShader) .zero
            (some (.float2 (ops.ofDecimal 0 1) (ops.ofDecimal 10 1))),
          .draw (.framebuffer .outputFramebuffer) (some .hdr_tonemapShader) .zero none ] ∧
    (draws (p.execute ops dx lum).1).length = 9 := by
  constructor
  · have h1 : ops.toInt (ops.ofInt 1) = 1 := ops.toInt_ofInt 1 (by decide)
    unfold BloomPass.execute
    rw [downsample_chain]
    simp only [downsample]
    by_cases h : dx = 0 <;>
      simp [h, events, GlState.initial, GlState.step, GlState.record, GlState.drawBuffer,
        GlState.readBuffer, Event.tag, DrawRecord.uniformValue]
  · rw [draws_execute]
    rfl

/-- C8: the calls issued by `execute` do not depend on the value returned by the
luminance readback. In the bright pass and in the tonemap pass `u_exposure` is the field
`exposure` and `u_tonemap` is `(middleGrey, whitePoint * whitePoint, threshold, 0)`. -/
theorem execute_ignores_readback {F : Type} (ops : FloatOps F) (p : BloomPass F) (dx : Int)
    (lum1 lum2 : F × F × F × F) :
    p.execute ops dx lum1 = p.execute ops dx lum2 ∧
    ∃ pre b h v t,
      draws (p.execute ops dx lum1).1 = pre ++ [b, h, v, t] ∧ pre.length = 5 ∧
      b.program = some .hdr_brightShader ∧
      b.uniformValue "u_exposure" = some (.float p.exposure) ∧
      b.uniformValue "u_tonemap"
        = some (.float4 p.middleGrey (ops.mul p.whitePoint p.whitePoint) p.threshold
            (ops.ofDecimal 0 1)) ∧
      t.program = some .hdr_tonemapShader ∧
      t.uniformValue "u_exposure" = some (.float p.exposure) ∧
      t.uniformValue "u_tonemap"
        = some (.float4 p.middleGrey (ops.mul p.whitePoint p.whitePoint) p.threshold
            (ops.ofDecimal 0 1)) := by
  refine ⟨rfl, ?_⟩
  rw [draws_execute]
  simp only [executeDraws]
  refine ⟨[_, _, _, _, _], _, _, _, _, rfl, rfl, rfl, ?_, ?_, rfl, ?_, ?_⟩ <;>
    simp [DrawRecord.uniformValue]

/-- C9, as amended: the constructor allocates nine textures and attaches each of them at
exactly one (framebuffer, attachment point) pair, no pair being used twice;
`check_complete` is called on each of the eight framebuffers (five luminance, bright, blur,
output), which are all the framebuffers that got an attachment; and in the call sequence
all attachments come first, then all completeness checks, then all shader compilations. -/
theorem constructor_attachments {F : Type} (ops : FloatOps F) (p : BloomPass F) :
    setupsOf (BloomPass.constructorCalls ops p)
      = [ .luminanceTex 0, .luminanceTex 1, .luminanceTex 2, .luminanceTex 3, .luminanceTex 4,
          .brightTex, .blurPasses 0, .blurPasses 1, .outputTex ] ∧
    (setupsOf (BloomPass.constructorCalls ops p)).Nodup ∧
    (∀ t ∈ setupsOf (BloomPass.constructorCalls ops p),
      ((attachmentsOf (BloomPass.constructorCalls ops p)).filter
        (fun e => decide (e.2.2 = GLuint.texture t))).length = 1) ∧
    (attachmentsOf (BloomPass.constructorCalls ops p)).length = 9 ∧
    ((attachmentsOf (BloomPass.constructorCalls ops p)).map (fun e => (e.1, e.2.1))).Nodup ∧
    checksOf (BloomPass.constructorCalls ops p)
      = [ .luminance 0, .luminance 1, .luminance 2, .luminance 3, .luminance 4,
          .brightFramebuffer, .blurFramebuffer, .outputFramebuffer ] ∧
    (∀ e ∈ attachmentsOf (BloomPass.constructorCalls ops p),
      ∃ f ∈ checksOf (BloomPass.constructorCalls ops p), e.1 = GLuint.framebuffer f) ∧
    ∃ pre mid post,
      BloomPass.constructorCalls ops p = pre ++ mid ++ post ∧
      (attachmentsOf pre).length = 9 ∧ checksOf pre = [] ∧ compilesOf pre = [] ∧
      attachmentsOf mid = [] ∧ (checksOf mid).length = 8 ∧ compilesOf mid = [] ∧
      attachmentsOf post = [] ∧ checksOf post = [] ∧ (compilesOf post).length = 6 := by
  have hsetups : setupsOf (BloomPass.constructorCalls ops p)
      = [ .luminanceTex 0, .luminanceTex 1, .luminanceTex 2, .luminanceTex 3, .luminanceTex 4,
          .brightTex, .blurPasses 0, .blurPasses 1, .outputTex ] := by
    simp [BloomPass.constructorCalls, setupsOf, List.range, List.range.loop]
  have hatt : attachmentsOf (BloomPass.constructorCalls ops p)
      = [ (.framebuffer (.luminance 0), .GL_COLOR_ATTACHMENT0, .texture (.luminanceTex 0)),
          (.framebuffer (.luminance 1), .GL_COLOR_ATTACHMENT0, .texture (.luminanceTex 1)),
          (.framebuffer (.luminance 2), .GL_COLOR_ATTACHMENT0, .texture (.luminanceTex 2)),
          (.framebuffer (.luminance 3), .GL_COLOR_ATTACHMENT0, .texture (.luminanceTex 3)),
          (.framebuffer (.luminance 4), .GL_COLOR_ATTACHMENT0, .texture (.luminanceTex 4)),
          (.framebuffer .brightFramebuffer, .GL_COLOR_ATTACHMENT0, .texture .brightTex),
          (.framebuffer .blurFramebuffer, .GL_COLOR_ATTACHMENT0, .texture (.blurPasses 0)),
          (.framebuffer .blurFramebuffer, .GL_COLOR_ATTACHMENT1, .texture (.blurPasses 1)),
          (.framebuffer .outputFramebuffer, .GL_COLOR_ATTACHMENT0, .texture .outputTex) ] := by
    simp [BloomPass.constructorCalls, attachmentsOf, List.range, List.range.loop]
  have hchecks : checksOf (BloomPass.constructorCalls ops p)
      = [ .luminance 0, .luminance 1, .luminance 2, .luminance 3, .luminance 4,
          .brightFramebuffer, .blurFramebuffer, .outputFramebuffer ] := by
    simp [BloomPass.constructorCalls, checksOf, List.range, List.range.loop]
  rw [hsetups, hatt, hchecks]
  refine ⟨rfl, by decide, by decide, rfl, by decide, rfl, by decide, ?_⟩
  refine ⟨(BloomPass.constructorCalls ops p).take 19,
    ((BloomPass.constructorCalls ops p).drop 19).take 8,
    (BloomPass.constructorCalls ops p).drop 27, ?_, ?_, ?_, ?_, ?_, ?_, ?_, ?_, ?_, ?_⟩
  all_goals
    simp [BloomPass.constructorCalls, attachmentsOf, checksOf, compilesOf, List.range,
      List.range.loop]

/-- C9, the count of framebuffers: the constructor of a 1280x720 pass calls
`check_complete` on eight pairwise distinct framebuffers, each of which got an attachment,
so the framebuffers of the pass are not seven: no list of seven framebuffers contains all
the framebuffers that are checked. -/
theorem constructor_checks_eight_framebuffers :
    (checksOf (BloomPass.constructorCalls ratOps (BloomPass.init ratOps (1280, 720)))).Nodup ∧
    (checksOf (BloomPass.constructorCalls ratOps (BloomPass.init ratOps (1280, 720)))).length
      = 8 ∧
    (∀ f ∈ checksOf (BloomPass.constructorCalls ratOps (BloomPass.init ratOps (1280, 720))),
      ∃ e ∈ attachmentsOf
          (BloomPass.constructorCalls ratOps (BloomPass.init ratOps (1280, 720))),
        e.1 = GLuint.framebuffer f) ∧
    ¬ ∃ l : List GlFramebuffer, l.length = 7 ∧
      ∀ f ∈ checksOf (BloomPass.constructorCalls ratOps (BloomPass.init ratOps (1280, 720))),
        f ∈ l := by
  have hchecks :
      checksOf (BloomPass.constructorCalls ratOps (BloomPass.init ratOps (1280, 720)))
        = [ .luminance 0, .luminance 1, .luminance 2, .luminance 3, .luminance 4,
            .brightFramebuffer, .blurFramebuffer, .outputFramebuffer ] := by
    simp [BloomPass.constructorCalls, checksOf, List.range, List.range.loop]
  have hatt :
      (attachmentsOf
          (BloomPass.constructorCalls ratOps (BloomPass.init ratOps (1280, 720)))).map
          (fun e => e.1)
        = [ .framebuffer (.luminance 0), .framebuffer (.luminance 1),
            .framebuffer (.luminance 2), .framebuffer (.luminance 3),
            .framebuffer (.luminance 4), .framebuffer .brightFramebuffer,
            .framebuffer .blurFramebuffer, .framebuffer .blurFramebuffer,
            .framebuffer .outputFramebuffer ] := by
    simp [BloomPass.constructorCalls, attachmentsOf, List.range, List.range.loop]
  have hnodup : ([ .luminance 0, .luminance 1, .luminance 2, .luminance 3, .luminance 4,
      .brightFramebuffer, .blurFramebuffer, .outputFramebuffer ] : List GlFramebuffer).Nodup := by
    decide
  rw [hchecks]
  refine ⟨hnodup, rfl, ?_, ?_⟩
  · intro f hf
    have hmem : GLuint.framebuffer f ∈ (attachmentsOf
        (BloomPass.constructorCalls ratOps (BloomPass.init ratOps (1280, 720)))).map
        (fun e => e.1) := by
      rw [hatt]
      simp only [List.mem_cons, List.mem_nil_iff, or_false] at hf
      rcases hf with h | h | h | h | h | h | h | h <;> subst h <;> decide
    obtain ⟨e, he, hef⟩ := List.mem_map.mp hmem
    exact ⟨e, he, hef⟩
  · rintro ⟨l, hlen, hall⟩
    have hle := (List.subperm_of_subset hnodup (fun f hf => hall f hf)).length_le
    simp only [List.length_cons, List.length_nil] at hle
    omega

/-! ## Lemmas on `make_perlin_mesh` -/

theorem length_flatMap_const {α β : Type} (f : α → List β) (k : Nat) :
    ∀ l : List α, (∀ a ∈ l, (f a).length = k) → (l.flatMap f).length = l.length * k := by
  intro l
  induction l with
  | nil => intro _; simp
  | cons a rest ih =>
    intro h
    have ha : (f a).length = k := h a (List.mem_cons_self a rest)
    have hrest : (rest.flatMap f).length = rest.length * k :=
      ih (fun b hb => h b (List.mem_cons_of_mem a hb))
    simp only [List.flatMap_cons, List.length_append, List.length_cons, ha, hrest]
    ring

theorem length_loopRange (n : Int) : (loopRange n).length = n.toNat := by
  simp [loopRange]

theorem mem_loopRange (n x : Int) : x ∈ loopRange n ↔ 0 ≤ x ∧ x < n := by
  simp only [loopRange, List.mem_map, List.mem_range]
  constructor
  · rintro ⟨i, hi, rfl⟩
    omega
  · rintro ⟨h0, hn⟩
    exact ⟨x.toNat, by omega, by omega⟩

theorem toUInt32_le (v : Int) (hv : 0 ≤ v) : (toUInt32 v : Int) ≤ v := by
  unfold toUInt32
  omega

theorem perlinQuad_lt (g x z : Int) (hx0 : 0 ≤ x) (hx : x < g) (hz0 : 0 ≤ z) (hz : z < g) :
    ((perlinQuad g x z).1 : Int) < (g + 1) * (g + 1) ∧
    ((perlinQuad g x z).2.1 : Int) < (g + 1) * (g + 1) ∧
    ((perlinQuad g x z).2.2.1 : Int) < (g + 1) * (g + 1) ∧
    ((perlinQuad g x z).2.2.2 : Int) < (g + 1) * (g + 1) := by
  have hzg : 0 ≤ z * (g + 1) := mul_nonneg hz0 (by omega)
  have hz1g : 0 ≤ (z + 1) * (g + 1) := mul_nonneg (by omega) (by omega)
  have hb1 : (z + 1) * (g + 1) ≤ g * (g + 1) := by nlinarith
  have hb0 : z * (g + 1) ≤ (z + 1) * (g + 1) := by nlinarith
  have hsq : (g + 1) * (g + 1) = g * (g + 1) + g + 1 := by ring
  have htl := toUInt32_le (z * (g + 1) + x) (by omega)
  have htr := toUInt32_le (z * (g + 1) + (x + 1)) (by omega)
  have hbl := toUInt32_le ((z + 1) * (g + 1) + x) (by omega)
  have hbr := toUInt32_le ((z + 1) * (g + 1) + (x + 1)) (by omega)
  simp only [perlinQuad]
  refine ⟨?_, ?_, ?_, ?_⟩ <;> omega

/-- C10: for a grid size `g >= 0`, `make_perlin_mesh` returns `(g+1)*(g+1)` vertices and
`2*g*g` faces, and each of the three indices of every face is below `(g+1)*(g+1)`, hence
below the number of vertices. -/
theorem make_perlin_mesh_bounds {F : Type} (ops : FloatOps F) (noise : F × F → F)
    (compute_normals : List (F × F × F) → List (Nat × Nat × Nat) → List (F × F × F))
    (g : Int) (hg : 0 ≤ g) :
    ((make_perlin_mesh ops noise compute_normals g).vertices.length : Int)
      = (g + 1) * (g + 1) ∧
    ((make_perlin_mesh ops noise compute_normals g).faces.length : Int) = 2 * g * g ∧
    ∀ f ∈ (make_perlin_mesh ops noise compute_normals g).faces,
      ((f.1 : Int) < (g + 1) * (g + 1) ∧ (f.2.1 : Int) < (g + 1) * (g + 1) ∧
        (f.2.2 : Int) < (g + 1) * (g + 1)) ∧
      f.1 < (make_perlin_mesh ops noise compute_normals g).vertices.length ∧
      f.2.1 < (make_perlin_mesh ops noise compute_normals g).vertices.length ∧
      f.2.2 < (make_perlin_mesh ops noise compute_normals g).vertices.length := by
  have hv : ((make_perlin_mesh ops noise compute_normals g).vertices.length : Int)
      = (g + 1) * (g + 1) := by
    simp only [make_perlin_mesh]
    rw [length_flatMap_const _ (g + 1).toNat _ (fun a _ => by simp [length_loopRange]),
      length_loopRange]
    push_cast
    rw [Int.toNat_of_nonneg (by omega)]
  have hf : ((make_perlin_mesh ops noise compute_normals g).faces.length : Int)
      = 2 * g * g := by
    simp only [make_perlin_mesh]
    rw [length_flatMap_const _ 2 _ (fun a _ => by simp),
      length_flatMap_const _ g.toNat _ (fun a _ => by simp [length_loopRange]),
      length_loopRange]
    push_cast
    rw [Int.toNat_of_nonneg hg]
    ring
  refine ⟨hv, hf, ?_⟩
  intro f hmem
  have hidx : (f.1 : Int) < (g + 1) * (g + 1) ∧ (f.2.1 : Int) < (g + 1) * (g + 1) ∧
      (f.2.2 : Int) < (g + 1) * (g + 1) := by
    simp only [make_perlin_mesh, List.mem_flatMap, List.mem_map] at hmem
    obtain ⟨q, ⟨x, hx, z, hz, rfl⟩, hq⟩ := hmem
    rw [mem_loopRange] at hx hz
    obtain ⟨h1, h2, h3, h4⟩ := perlinQuad_lt g x z hx.1 hx.2 hz.1 hz.2
    simp only [List.mem_cons, List.mem_nil_iff, or_false] at hq
    rcases hq with rfl | rfl
    · exact ⟨h1, h2, h3⟩
    · exact ⟨h1, h3, h4⟩
  refine ⟨hidx, ?_, ?_, ?_⟩ <;> omega

/-- C10 at grid size 2 (nine vertices, eight faces). -/
theorem make_perlin_mesh_bounds_witness :
    (0 : Int) ≤ 2 ∧
    ((make_perlin_mesh ratOps (fun _ => 0) (fun _ _ => []) 2).vertices.length : Int)
      = (2 + 1) * (2 + 1) ∧
    ((make_perlin_mesh ratOps (fun _ => 0) (fun _ _ => []) 2).faces.length : Int)
      = 2 * 2 * 2 ∧
    ∀ f ∈ (make_perlin_mesh ratOps (fun _ => 0) (fun _ _ => []) 2).faces,
      ((f.1 : Int) < (2 + 1) * (2 + 1) ∧ (f.2.1 : Int) < (2 + 1) * (2 + 1) ∧
        (f.2.2 : Int) < (2 + 1) * (2 + 1)) ∧
      f.1 < (make_perlin_mesh ratOps (fun _ => 0) (fun _ _ => []) 2).vertices.length ∧
      f.2.1 < (make_perlin_mesh ratOps (fun _ => 0) (fun _ _ => []) 2).vertices.length ∧
      f.2.2 < (make_perlin_mesh ratOps (fun _ => 0) (fun _ _ => []) 2).vertices.length :=
  ⟨by decide, make_perlin_mesh_bounds ratOps (fun _ => 0) (fun _ _ => []) 2 (by decide)⟩

end GfxDev
